import Mathlib

/-!
Verification of the house-energy operational core against its specification.

The development shallowly embeds the relevant Python functions of the
repository (datafetcher.py, scraping_scheduler.py, house_energy.py) as
executable Lean definitions and proves or refutes the specified properties.

Conventions of the embedding:
* wall-clock timestamps are whole seconds (the code persists datetimes at
  second precision via replace with microsecond 0);
* float-valued readings are modelled as rationals, so the arithmetic of the
  small decimal quantities in scope is exact;
* a Python function that can raise is modelled as returning Except, and a
  bare except block as a total handler;
* the notification sink (module message_sender, not part of the sources
  here) is modelled per the spec contract as fire-and-forget and never
  raising; notifications are accumulated as lists of the literal message
  strings the code sends.
-/

namespace HouseEnergy

/- Wall-clock timestamps are plain naturals: whole seconds since an
arbitrary epoch. -/

def secondsPerHour : Nat := 3600

def secondsPerDay : Nat := 86400

/-- Midnight of the calendar day containing t. -/
def startOfDay (t : Nat) : Nat := t / secondsPerDay * secondsPerDay

/-- Whether the pattern occurs at the head of the text (helper for the
Python substring test). -/
def matchesAt : List Char → List Char → Bool
  | [], _ => true
  | _ :: _, [] => false
  | a :: as, b :: bs => a == b && matchesAt as bs

/-- Whether the pattern occurs anywhere in the text. -/
def containsChars (needle : List Char) : List Char → Bool
  | [] => matchesAt needle []
  | b :: bs => matchesAt needle (b :: bs) || containsChars needle bs

/-- The Python substring test: needle in hay. -/
def containsSubstr (needle hay : String) : Bool :=
  containsChars needle.toList hay.toList

/-- Python str.lower on ASCII names. -/
def strLower (s : String) : String := ⟨s.toList.map Char.toLower⟩

/-- A row of the tuya_data table (class TuyaData in datafetcher.py).
forward_energy_daily is NULL until calculate_forward_energy_daily fills it. -/
structure TuyaRow where
  date : Nat
  forward_energy : ℚ
  forward_energy_daily : Option ℚ
  bathroom_upper : ℚ
  bathroom_lower : ℚ
  first_bedroom : ℚ
  second_bedroom : ℚ
  third_bedroom : ℚ
deriving DecidableEq

/-- The later-dated of two rows; on a tie of dates the first argument wins
(a deterministic refinement of the unspecified SQL tie order). -/
def laterRow (a b : TuyaRow) : TuyaRow := if a.date < b.date then b else a

/-- One step of the scan implementing ORDER BY date DESC LIMIT 1. -/
def pickStep (acc : Option TuyaRow) (r : TuyaRow) : Option TuyaRow :=
  match acc with
  | none => some r
  | some b => some (laterRow b r)

/-- ORDER BY date DESC LIMIT 1 over a list of candidate rows. -/
def pickLatest (rows : List TuyaRow) : Option TuyaRow :=
  rows.foldl pickStep none

/-- The baseline query inside calculate_forward_energy_daily:
SELECT forward_energy FROM tuya_data WHERE date <= :today
ORDER BY date DESC LIMIT 1.
The bound parameter is date.today(), which the SQLite dialect renders as
midnight of the current day, and the stored fixed-width datetime strings
compare chronologically; hence the WHERE clause keeps exactly the rows with
timestamp at or before todayMidnight. -/
def baselineQuery (db : List TuyaRow) (todayMidnight : Nat) : Option ℚ :=
  match pickLatest (db.filter (fun r => decide (r.date ≤ todayMidnight))) with
  | some r => some r.forward_energy
  | none => none

/-- calculate_forward_energy_daily from datafetcher.py: fetch the baseline
via the query above and set forward_energy_daily to the plain difference,
or to 0 when the query returns no row. -/
def calculate_forward_energy_daily (db : List TuyaRow) (todayMidnight : Nat)
    (row : TuyaRow) : TuyaRow :=
  match baselineQuery db todayMidnight with
  | some b => { row with forward_energy_daily := some (row.forward_energy - b) }
  | none => { row with forward_energy_daily := some 0 }

/-- Stated from the spec wording, for the refinement comparison only: the
baseline as the earliest reading of the current calendar day. -/
def specFirstOfDayBaseline (db : List TuyaRow) (todayMidnight : Nat) : Option ℚ :=
  ((db.filter (fun r =>
      decide (todayMidnight ≤ r.date ∧ r.date < todayMidnight + secondsPerDay))).foldl
    (fun acc r => match acc with
      | none => some r
      | some b => some (if r.date < b.date then r else b)) none).map
    (fun r => r.forward_energy)

/-! ### Retry scheduler (scraping_scheduler.py) -/

/-- change_update_time from scraping_scheduler.py. Mode next_day adds one
day and then replaces the time of day with 12:00:00; mode next_hour adds one
hour (the microsecond replacement is a no-op at second precision); any other
mode returns the input unchanged. -/
def change_update_time (mode : String) (update_time : Nat) : Nat :=
  if mode = "next_day" then startOfDay (update_time + secondsPerDay) + 12 * secondsPerHour
  else if mode = "next_hour" then update_time + secondsPerHour
  else update_time

/-- The next occurrence of local 12:00 strictly after now (the spec wording,
for comparison with what the code computes). -/
def nextNoonAfter (now : Nat) : Nat :=
  if now % secondsPerDay < 12 * secondsPerHour then startOfDay now + 12 * secondsPerHour
  else startOfDay now + secondsPerDay + 12 * secondsPerHour

/-- Captured output of the scraper subprocess run. -/
structure ScrapeOutput where
  stdout : String
  stderr : String
deriving DecidableEq

/-- run_scraper from scraping_scheduler.py, at the moment the subprocess has
produced its output: the returned update time is next-day noon when the
stdout contains the marker Success, and now plus one hour otherwise. The
print, telegram and logging side channels do not affect the returned time. -/
def run_scraper (out : ScrapeOutput) (now : Nat) : Nat :=
  if containsSubstr "Success" out.stdout then change_update_time "next_day" now
  else change_update_time "next_hour" now

/-- Behaviour of the Python callable handed to the worker pool: it runs for
duration seconds and then either returns a value (the new update time) or
raises. -/
structure Task where
  duration : Nat
  outcome : Except String Nat

/-- The hard wall-clock ceiling of time_limit: 600 seconds. -/
def ceiling : Nat := 600

/-- What the call to time_limit does to its caller: returns a value, or lets
an exception raised by the task propagate. -/
inductive TLOutcome where
  | returned (t : Nat)
  | raised (e : String)
deriving DecidableEq

/-- Which pool operations ran during the time_limit call, and whether the
timeout notification was sent. -/
structure PoolTrace where
  closed : Bool
  terminated : Bool
  joined : Bool
  timeoutReported : Bool
deriving DecidableEq

/-- time_limit from scraping_scheduler.py. A one-worker pool is created,
the task is submitted, the pool is closed, and result.get(timeout=600) is
awaited. If the task finishes within the ceiling, get either returns the
value (then pool.join runs and the value is returned) or re-raises the
exception the task raised, which is not a TimeoutError and therefore
propagates out of the function. If the task is still running at the
ceiling, get raises TimeoutError, the handler terminates and joins the
pool, result.ready() is false, the timeout is reported and the returned
time is change_update_time next_hour applied to the update_time argument. -/
def time_limit (task : Task) (update_time : Nat) : TLOutcome × PoolTrace :=
  if task.duration ≤ ceiling then
    match task.outcome with
    | .error e =>
        (.raised e,
         { closed := true, terminated := false, joined := false, timeoutReported := false })
    | .ok v =>
        (.returned v,
         { closed := true, terminated := false, joined := true, timeoutReported := false })
  else
    (.returned (change_update_time "next_hour" update_time),
     { closed := true, terminated := true, joined := true, timeoutReported := true })

/-- Whether a worker process is still running after the time_limit call
returns: the task had not finished by the ceiling (the only way the call
returns while the task is still going) and the pool was never terminated. -/
def residualWorker (task : Task) (tr : PoolTrace) : Bool :=
  decide (ceiling < task.duration) && !tr.terminated

/-- One iteration of the main loop of scraping_scheduler.py: the task runs
only when update_time < now. -/
def scraperLoopTick (now update_time : Nat) (task : Task) :
    Option (TLOutcome × PoolTrace) :=
  if update_time < now then some (time_limit task update_time) else none

/-! ### Transactional session scope (datafetcher.py) -/

/-- The observable session state session_scope leaves behind. -/
structure Sess where
  committed : Bool
  rolledBack : Bool
  closed : Bool
  notifs : List String
deriving DecidableEq

/-- session_scope from datafetcher.py, as a function of whether the body
(the yielded operations followed by commit) raises. The bare except rolls
back and sends one message and does not re-raise (the raise statement is
commented out), the finally closes the session, and contextlib suppresses
the body exception because the generator swallows it. The outcome is
returned inside Except to make propagation to the caller observable. -/
def session_scope {α : Type} (body : Except String α) :
    Except String (Option α × Sess) :=
  match body with
  | .ok a =>
      .ok (some a, { committed := true, rolledBack := false, closed := true, notifs := [] })
  | .error _ =>
      .ok (none, { committed := false, rolledBack := true, closed := true,
                   notifs := ["Error: Session scope failed"] })

/-! ### Telemetry collector cycle (datafetcher.py) -/

/-- A row of the solax_data table. -/
structure SolaxRow where
  date : Nat
  yield_today : ℚ
  live_production : ℚ
deriving DecidableEq

/-- The five room temperatures of a successful Tuya fetch. -/
structure HeaterTemps where
  bathroom_upper : ℚ
  bathroom_lower : ℚ
  first_bedroom : ℚ
  second_bedroom : ℚ
  third_bedroom : ℚ
deriving DecidableEq

/-- The eight fields of a successful weather fetch. -/
structure WeatherFetch where
  temperature : ℚ
  temperature_feels : ℚ
  humidity : ℚ
  pressure : ℚ
  wind : ℚ
  wind_direction : ℚ
  clouds : ℚ
  description : String
deriving DecidableEq

/-- A row of the weather_data table. -/
structure WeatherRow where
  date : Nat
  weather_temperature : ℚ
  weather_temperature_feels : ℚ
  weather_humidity : ℚ
  weather_pressure : ℚ
  weather_wind : ℚ
  weather_wind_direction : ℚ
  weather_clouds : ℚ
  weather_description : String
deriving DecidableEq

/-- The database the collector writes to. -/
structure DB where
  solax : List SolaxRow
  tuya : List TuyaRow
  weather : List WeatherRow
deriving DecidableEq

/-- Outcome of one download function call: it returned a value, it returned
None after sending its own failure notification from inside the function, or
it raised (to be caught by the enclosing block of save_all_data_to_db). -/
inductive Fetch (α : Type) where
  | ok (v : α)
  | failed
  | raised
deriving DecidableEq

def Fetch.isOk : Fetch α → Bool
  | .ok _ => true
  | _ => false

/-- The external inputs of one save_all_data_to_db cycle: the wall clock,
the three download outcomes, and whether each commit inside session_scope
succeeds at the save step. -/
structure CycleInput where
  now : Nat
  solax : Fetch (ℚ × ℚ)
  tuya : Fetch (ℚ × HeaterTemps)
  weather : Fetch WeatherFetch
  solaxStore : Bool
  tuyaStore : Bool
  weatherStore : Bool
deriving DecidableEq

/-- The TuyaData row built on a successful Tuya fetch, before the daily
delta is filled in. -/
def mkTuyaRow (now : Nat) (forward_energy : ℚ) (h : HeaterTemps) : TuyaRow :=
  { date := now, forward_energy := forward_energy, forward_energy_daily := none,
    bathroom_upper := h.bathroom_upper, bathroom_lower := h.bathroom_lower,
    first_bedroom := h.first_bedroom, second_bedroom := h.second_bedroom,
    third_bedroom := h.third_bedroom }

/-- First block of save_all_data_to_db: download Solax data and build the
row. On a raise the enclosing except sends the download-step message; on a
None return the message was already sent inside download_solax_data. In both
failure cases the local variable solax_to_db is never bound. -/
def solaxBlock (now : Nat) : Fetch (ℚ × ℚ) → Option SolaxRow × List String
  | .ok (y, p) => (some ⟨now, y, p⟩, [])
  | .failed => (none, ["Error: Could not retrieve data from Solax"])
  | .raised => (none, ["Error: Could not download Solax data to database"])

/-- Second block: download Tuya data, build the row, and fill in the daily
delta via calculate_forward_energy_daily, whose baseline query runs against
the table state before this cycle writes anything. -/
def tuyaBlock (dbTuya : List TuyaRow) (now : Nat) :
    Fetch (ℚ × HeaterTemps) → Option TuyaRow × List String
  | .ok (fe, h) =>
      (some (calculate_forward_energy_daily dbTuya (startOfDay now) (mkTuyaRow now fe h)), [])
  | .failed => (none, ["Error: Could not retrive data from TUYA"])
  | .raised => (none, ["Error: Could not download Tuya data to database"])

/-- Third block: download weather data and build the row. -/
def weatherBlock (now : Nat) : Fetch WeatherFetch → Option WeatherRow × List String
  | .ok w => (some ⟨now, w.temperature, w.temperature_feels, w.humidity, w.pressure,
      w.wind, w.wind_direction, w.clouds, w.description⟩, [])
  | .failed => (none, ["Error: Could not retrieve data from Weather API"])
  | .raised => (none, ["Error: Could not download Weather data to database"])

/-- One save block of save_all_data_to_db: the with-body (add the row,
then commit on exit) runs inside session_scope. When the row variable was
never bound, referencing it raises UnboundLocalError inside the with body;
the exception is thrown into session_scope at its yield and swallowed by
its bare except (the raise is commented out), which sends the message
Error: Session scope failed. A failing commit is swallowed the same way
with the same message. session_scope therefore never propagates, so the
except of the enclosing try never fires and outerMsg, the save-step
message of the source, is dead code on every modeled path. -/
def saveBlock {ρ : Type} (rows : List ρ) (toSave : Option ρ) (storeOk : Bool)
    (outerMsg : String) : List ρ × List String :=
  let body : Except String (List ρ) :=
    match toSave with
    | none => .error "UnboundLocalError"
    | some r => if storeOk then .ok (rows ++ [r]) else .error "commit failed"
  match session_scope body with
  | .ok (some newRows, s) => (newRows, s.notifs)
  | .ok (none, s) => (rows, s.notifs)
  | .error _ => (rows, [outerMsg])

/-- save_all_data_to_db from datafetcher.py: the three download blocks run
in order, then the three save blocks, each wrapped in its own try/except;
notifications accumulate in program order. -/
def save_all_data_to_db (db : DB) (c : CycleInput) : DB × List String :=
  let sb := solaxBlock c.now c.solax
  let tb := tuyaBlock db.tuya c.now c.tuya
  let wb := weatherBlock c.now c.weather
  let ss := saveBlock db.solax sb.1 c.solaxStore
    "Error: Could not save Solax data to database"
  let ts := saveBlock db.tuya tb.1 c.tuyaStore
    "Error: Could not save Tuya data to database"
  let ws := saveBlock db.weather wb.1 c.weatherStore
    "Error: Could not save Weather data to database"
  (⟨ss.1, ts.1, ws.1⟩, sb.2 ++ tb.2 ++ wb.2 ++ ss.2 ++ ts.2 ++ ws.2)

/-- A finite trace of the collector scheduler loop: one
save_all_data_to_db cycle per tick, threading the database. -/
def runCycles (cs : List CycleInput) (db : DB) : DB × List String :=
  match cs with
  | [] => (db, [])
  | c :: rest =>
      let step := save_all_data_to_db db c
      let tail := runCycles rest step.1
      (tail.1, step.2 ++ tail.2)

/-! ### Process supervisor (house_energy.py) -/

/-- The pid, name and cmdline attributes psutil reports for one live
process. -/
structure ProcInfo where
  name : String
  cmdline : List String
deriving DecidableEq

/-- check_running_python_processes from house_energy.py: for every live
process whose name contains python (lower-cased) and whose cmdline is
non-empty, collect cmdline[1] when the cmdline has at least two entries and
the token Unknown otherwise. -/
def check_running_python_processes (procs : List ProcInfo) : List String :=
  procs.filterMap (fun p =>
    if containsSubstr "python" (strLower p.name) && !p.cmdline.isEmpty then
      some ((p.cmdline.get? 1).getD "Unknown")
    else none)

/-- The static required-process list of check_and_run_processes. -/
def required_processes : List String :=
  ["app.py", "datafetcher.py", "scraping_scheduler.py"]

/-- check_and_run_processes from house_energy.py, projected onto its spawn
calls: subprocess.Popen(["python", p]) is invoked once for each required
name not found in the snapshot, in list order. -/
def check_and_run_processes (procs : List ProcInfo) : List String :=
  required_processes.filter
    (fun r => decide (¬ r ∈ check_running_python_processes procs))

/-- What the schedule setup of house_energy.py registers: every do call but
one passes a function object; the 5-minute line instead calls
check_wifi_connection() at setup time and registers its return value None. -/
inductive SchedJob where
  | callable (jobName : String)
  | registeredNone
deriving DecidableEq

/-- The four jobs registered at the bottom of house_energy.py, in source
order. The three function-valued jobs never raise: check_and_run_processes
wraps each Popen in try/except, stop_process wraps its kill loop in
try/except, make_database_backup wraps the copy in try/except, and the
notification sink is fire-and-forget. In the real program the TypeError of
the None registration already fires inside do() itself on line 178,
because functools.partial rejects a non-callable first argument; the model
conservatively places the same uncaught TypeError at the first run of the
job list, which is the latest point it could surface. Either way it is an
uncaught TypeError originating from line 178 during setup, before the
while loop is ever entered. -/
def houseEnergySetupJobs : List SchedJob :=
  [.callable "check_and_run_processes",
   .registeredNone,
   .callable "stop_process",
   .callable "make_database_backup"]

/-- Running one registered job: calling the object stored by do. Calling
None raises TypeError. -/
def runJob : SchedJob → Except String Unit
  | .callable _ => .ok ()
  | .registeredNone => .error "TypeError: NoneType object is not callable"

/-- schedule.run_all and schedule.run_pending call each due job in turn and
catch nothing, so the first exception propagates to the caller. -/
def schedule_run_all (jobs : List SchedJob) : Except String Unit :=
  match jobs with
  | [] => .ok ()
  | j :: rest =>
      match runJob j with
      | .ok _ => schedule_run_all rest
      | .error e => .error e

/-! ### Concrete scenario inputs -/

/-- Database for the C2 counterexample: the last reading of the previous
day holds 41 kWh and the first reading of the current day holds 40 kWh. -/
def c2db : List TuyaRow :=
  [⟨82800, 41, none, 0, 0, 0, 0, 0⟩, ⟨115200, 40, none, 0, 0, 0, 0, 0⟩]

/-- Database for the end-to-end scenario: one prior Tuya reading of
40 kWh, so the baseline the code queries is 40. -/
def c6db : DB := ⟨[], [⟨82800, 40, none, 0, 0, 0, 0, 0⟩], []⟩

/-- End-to-end cycle input: source A (Solax) raises, source B (Tuya)
succeeds with 42 kWh, weather succeeds, all commits succeed. -/
def c6cycle : CycleInput :=
  { now := 122400, solax := .raised, tuya := .ok (42, ⟨20, 20, 20, 20, 20⟩),
    weather := .ok ⟨10, 9, 80, 1013, 5, 180, 75, "clouds"⟩,
    solaxStore := true, tuyaStore := true, weatherStore := true }

/-! ## Helper lemmas -/

theorem laterRow_cases (a b : TuyaRow) : laterRow a b = a ∨ laterRow a b = b := by
  unfold laterRow
  split
  · exact Or.inr rfl
  · exact Or.inl rfl

theorem laterRow_date_left (a b : TuyaRow) : a.date ≤ (laterRow a b).date := by
  unfold laterRow
  by_cases hab : a.date < b.date
  · rw [if_pos hab]
    exact Nat.le_of_lt hab
  · rw [if_neg hab]

theorem laterRow_date_right (a b : TuyaRow) : b.date ≤ (laterRow a b).date := by
  unfold laterRow
  by_cases hab : a.date < b.date
  · rw [if_pos hab]
  · rw [if_neg hab]
    exact Nat.le_of_not_lt hab

theorem pickFold_mem (rows : List TuyaRow) :
    ∀ (acc : Option TuyaRow) (r : TuyaRow),
      rows.foldl pickStep acc = some r → acc = some r ∨ r ∈ rows := by
  induction rows with
  | nil =>
    intro acc r h
    exact Or.inl h
  | cons x xs ih =>
    intro acc r h
    rw [List.foldl_cons] at h
    rcases ih _ r h with h1 | h2
    · cases acc with
      | none =>
        simp [pickStep] at h1
        exact Or.inr (h1 ▸ List.mem_cons_self x xs)
      | some b =>
        simp [pickStep] at h1
        rcases laterRow_cases b x with hc | hc
        · exact Or.inl (by rw [← h1, hc])
        · exact Or.inr (by rw [← h1, hc]; exact List.mem_cons_self x xs)
    · exact Or.inr (List.mem_cons_of_mem x h2)

theorem pickFold_date (rows : List TuyaRow) :
    ∀ (acc : Option TuyaRow) (r : TuyaRow),
      rows.foldl pickStep acc = some r →
      (∀ b, acc = some b → b.date ≤ r.date) ∧ ∀ s ∈ rows, s.date ≤ r.date := by
  induction rows with
  | nil =>
    intro acc r h
    simp only [List.foldl_nil] at h
    subst h
    refine ⟨fun b hb => ?_, by simp⟩
    injection hb with e
    rw [← e]
  | cons x xs ih =>
    intro acc r h
    rw [List.foldl_cons] at h
    obtain ⟨hacc, hxs⟩ := ih _ r h
    have hx : x.date ≤ r.date := by
      cases acc with
      | none => exact hacc x rfl
      | some b =>
        exact Nat.le_trans (laterRow_date_right b x) (hacc (laterRow b x) rfl)
    refine ⟨fun b hb => ?_, fun s hs => ?_⟩
    · cases hb
      exact Nat.le_trans (laterRow_date_left b x) (hacc (laterRow b x) rfl)
    · rcases List.mem_cons.mp hs with h | h
      · exact h ▸ hx
      · exact hxs s h

theorem pickFold_eq_none (rows : List TuyaRow) :
    ∀ acc, rows.foldl pickStep acc = none → acc = none ∧ rows = [] := by
  induction rows with
  | nil =>
    intro acc h
    exact ⟨h, rfl⟩
  | cons x xs ih =>
    intro acc h
    rw [List.foldl_cons] at h
    have hstep := (ih _ h).1
    cases acc <;> simp [pickStep] at hstep

theorem baselineQuery_some_spec (db : List TuyaRow) (t : Nat) (b : ℚ)
    (h : baselineQuery db t = some b) :
    ∃ r ∈ db, r.date ≤ t ∧ r.forward_energy = b ∧
      ∀ s ∈ db, s.date ≤ t → s.date ≤ r.date := by
  unfold baselineQuery at h
  cases hq : pickLatest (db.filter (fun r => decide (r.date ≤ t))) with
  | none => rw [hq] at h; cases h
  | some r =>
    rw [hq] at h
    have hval : r.forward_energy = b := by injection h
    unfold pickLatest at hq
    have hmem := pickFold_mem _ none r hq
    have hdate := pickFold_date _ none r hq
    rcases hmem with habs | hmem
    · cases habs
    · have hr := List.mem_filter.mp hmem
      refine ⟨r, hr.1, by simpa using hr.2, hval, fun s hs hst => ?_⟩
      exact hdate.2 s (List.mem_filter.mpr ⟨hs, by simpa using hst⟩)

theorem baselineQuery_none_spec (db : List TuyaRow) (t : Nat)
    (h : baselineQuery db t = none) : ∀ r ∈ db, ¬ r.date ≤ t := by
  unfold baselineQuery at h
  cases hq : pickLatest (db.filter (fun r => decide (r.date ≤ t))) with
  | some r => rw [hq] at h; cases h
  | none =>
    unfold pickLatest at hq
    have hfil := (pickFold_eq_none _ none hq).2
    intro r hr hrt
    have hmem : r ∈ db.filter (fun r => decide (r.date ≤ t)) :=
      List.mem_filter.mpr ⟨hr, by simpa using hrt⟩
    rw [hfil] at hmem
    cases hmem

/-! ## Claim C1 -/

/-- Claim C1, counterexample: with one stored reading of 42 kWh dated at or
before midnight and a current reading of 40 kWh, the code stores a daily
delta of -2, which is negative and differs from max(0, 40 - 42) = 0: the
stored delta is not clamped at a counter reset. -/
theorem c1_counterexample :
    (calculate_forward_energy_daily [⟨0, 42, none, 0, 0, 0, 0, 0⟩] 86400
        ⟨90000, 40, none, 0, 0, 0, 0, 0⟩).forward_energy_daily = some (-2) ∧
    max (0 : ℚ) (40 - 42) = 0 ∧ ((-2 : ℚ) < 0) := by
  refine ⟨?_, by norm_num, by norm_num⟩
  norm_num [calculate_forward_energy_daily, baselineQuery, pickLatest, pickStep,
    laterRow, List.filter, List.foldl]

/-- Claim C1, amended: the stored daily delta is the plain difference
current minus baseline whenever the baseline query returns a row, with no
clamping, and in particular it is strictly negative when current is below
the baseline; the delta is 0 when the query returns no row. -/
theorem c1_delta_unclamped (db : List TuyaRow) (t : Nat) (row : TuyaRow) :
    (∀ b : ℚ, baselineQuery db t = some b →
      (calculate_forward_energy_daily db t row).forward_energy_daily
          = some (row.forward_energy - b) ∧
      (row.forward_energy < b →
        ∃ d : ℚ, (calculate_forward_energy_daily db t row).forward_energy_daily
            = some d ∧ d < 0)) ∧
    (baselineQuery db t = none →
      (calculate_forward_energy_daily db t row).forward_energy_daily = some 0) := by
  constructor
  · intro b hb
    constructor
    · simp [calculate_forward_energy_daily, hb]
    · intro hlt
      refine ⟨row.forward_energy - b, ?_, by linarith⟩
      simp [calculate_forward_energy_daily, hb]
  · intro hn
    simp [calculate_forward_energy_daily, hn]

/-- Witness for the amended C1 theorem at a concrete input. -/
theorem c1_delta_unclamped_witness :
    (calculate_forward_energy_daily [⟨0, 42, none, 0, 0, 0, 0, 0⟩] 86400
        ⟨90000, 40, none, 0, 0, 0, 0, 0⟩).forward_energy_daily
      = some ((40 : ℚ) - 42) :=
  ((c1_delta_unclamped [⟨0, 42, none, 0, 0, 0, 0, 0⟩] 86400
      ⟨90000, 40, none, 0, 0, 0, 0, 0⟩).1 42
    (by norm_num [baselineQuery, pickLatest, pickStep, laterRow, List.filter,
      List.foldl])).1

/-! ## Claim C2 -/

/-- Claim C2, counterexample: the table holds a reading of 41 kWh from the
previous day at 23:00 and a reading of 40 kWh from the current day at
08:00. For a new reading of 42 kWh at 10:00 the claim predicts baseline 40
(the earliest reading of the current day) and delta 2, but the query keeps
only rows dated at or before midnight and picks the latest of them, so the
code subtracts 41 and stores delta 1. -/
theorem c2_counterexample :
    baselineQuery c2db 86400 = some 41 ∧
    specFirstOfDayBaseline c2db 86400 = some 40 ∧
    (calculate_forward_energy_daily c2db 86400
        ⟨122400, 42, none, 0, 0, 0, 0, 0⟩).forward_energy_daily = some 1 ∧
    ((1 : ℚ) ≠ 42 - 40) := by
  refine ⟨?_, ?_, ?_, by norm_num⟩
  · norm_num [baselineQuery, pickLatest, pickStep, laterRow, c2db,
      List.filter, List.foldl]
  · norm_num [specFirstOfDayBaseline, secondsPerDay, c2db, List.filter, List.foldl]
  · norm_num [calculate_forward_energy_daily, baselineQuery, pickLatest, pickStep,
      laterRow, c2db, List.filter, List.foldl]

/-- Claim C2, amended: the baseline subtracted from a new cumulative
reading is the latest stored reading dated at or before midnight of the
current calendar day (readings taken during the current day are never
selected), it is absent exactly when no stored row is dated at or before
midnight, and it is recomputed by the storage query on every new reading:
each successful Tuya fetch stores exactly the row produced by running
calculate_forward_energy_daily against the pre-cycle table. -/
theorem c2_baseline_latest_before_midnight (db : List TuyaRow) (t : Nat)
    (dbc : DB) (c : CycleInput) :
    (∀ b : ℚ, baselineQuery db t = some b →
      ∃ r ∈ db, r.date ≤ t ∧ r.forward_energy = b ∧
        ∀ s ∈ db, s.date ≤ t → s.date ≤ r.date) ∧
    (baselineQuery db t = none → ∀ r ∈ db, ¬ r.date ≤ t) ∧
    (∀ (fe : ℚ) (h : HeaterTemps), c.tuya = .ok (fe, h) → c.tuyaStore = true →
      (save_all_data_to_db dbc c).1.tuya
        = dbc.tuya ++ [calculate_forward_energy_daily dbc.tuya (startOfDay c.now)
            (mkTuyaRow c.now fe h)]) := by
  refine ⟨fun b hb => baselineQuery_some_spec db t b hb,
    fun hn => baselineQuery_none_spec db t hn, fun fe h htu hst => ?_⟩
  simp [save_all_data_to_db, tuyaBlock, saveBlock, session_scope, htu, hst]

/-- Witness for the amended C2 theorem at the end-to-end scenario input. -/
theorem c2_baseline_latest_before_midnight_witness :
    (save_all_data_to_db c6db c6cycle).1.tuya
      = c6db.tuya ++ [calculate_forward_energy_daily c6db.tuya (startOfDay 122400)
          (mkTuyaRow 122400 42 ⟨20, 20, 20, 20, 20⟩)] :=
  (c2_baseline_latest_before_midnight c2db 86400 c6db c6cycle).2.2 42
    ⟨20, 20, 20, 20, 20⟩ rfl rfl

/-! ## Claim C3 -/

theorem change_update_time_next_hour (u : Nat) :
    change_update_time "next_hour" u = u + secondsPerHour := by
  unfold change_update_time
  rw [if_neg (by decide), if_pos rfl]

theorem change_update_time_next_day (u : Nat) :
    change_update_time "next_day" u
      = startOfDay (u + secondsPerDay) + 12 * secondsPerHour := by
  unfold change_update_time
  rw [if_pos rfl]

theorem startOfDay_add_day (t : Nat) :
    startOfDay (t + secondsPerDay) = startOfDay t + secondsPerDay := by
  unfold startOfDay secondsPerDay
  omega

/-- Claim C3, counterexample. Timeout path: with previous scheduled time 0,
a wall clock of 100 at the tick, and a task outrunning the ceiling, the
code computes next attempt time 0 + 3600 = 3600, which is 1 hour after the
old scheduled time, not 1 hour after now, whether now is read at invocation
(100) or after the 600 second ceiling (700). Success path: a run that
prints the Success marker at 08:00 (now = 28800) yields next-day noon
129600, not 43200, the next occurrence of local 12:00. -/
theorem c3_counterexample :
    scraperLoopTick 100 0 ⟨10000, .ok 0⟩
      = some (.returned 3600, ⟨true, true, true, true⟩) ∧
    ((3600 : Nat) ≠ 100 + 3600) ∧ ((3600 : Nat) ≠ 700 + 3600) ∧
    run_scraper ⟨"Success, data is actual.", ""⟩ 28800 = 129600 ∧
    nextNoonAfter 28800 = 43200 ∧ ((129600 : Nat) ≠ 43200) := by
  refine ⟨by decide, by decide, by decide, by decide, by decide, by decide⟩

/-- Claim C3, amended: on a timed-out run the next attempt time is the
previous scheduled update time plus 1 hour (not 1 hour after now) and the
timeout is reported; on a completed run whose output lacks the Success
marker the next attempt time is now plus 1 hour; on a completed run whose
output holds the marker the next attempt time is 12:00 of the calendar day
after the run, which coincides with the next occurrence of local 12:00
exactly when the run ends at or after 12:00 local time. -/
theorem c3_retry_transitions (task : Task) (u now : Nat) (out : ScrapeOutput) :
    (ceiling < task.duration →
      (time_limit task u).1 = .returned (u + secondsPerHour) ∧
      (time_limit task u).2.timeoutReported = true) ∧
    (containsSubstr "Success" out.stdout = false →
      run_scraper out now = now + secondsPerHour) ∧
    (containsSubstr "Success" out.stdout = true →
      run_scraper out now = startOfDay now + secondsPerDay + 12 * secondsPerHour ∧
      (12 * secondsPerHour ≤ now % secondsPerDay →
        run_scraper out now = nextNoonAfter now) ∧
      (now % secondsPerDay < 12 * secondsPerHour →
        run_scraper out now ≠ nextNoonAfter now)) := by
  refine ⟨fun h => ?_, fun h => ?_, fun h => ?_⟩
  · unfold time_limit
    rw [if_neg (Nat.not_le.mpr h)]
    exact ⟨by rw [change_update_time_next_hour], rfl⟩
  · simp [run_scraper, h, change_update_time_next_hour]
  · have he : run_scraper out now
        = startOfDay now + secondsPerDay + 12 * secondsPerHour := by
      rw [run_scraper, if_pos h, change_update_time_next_day, startOfDay_add_day]
    refine ⟨he, fun hge => ?_, fun hlt => ?_⟩
    · rw [he]
      unfold nextNoonAfter
      rw [if_neg (Nat.not_lt.mpr hge)]
    · rw [he]
      unfold nextNoonAfter
      rw [if_pos hlt]
      unfold secondsPerDay secondsPerHour
      omega

/-- Witness for the amended C3 theorem: the timeout branch and the two
marker branches at concrete inputs. -/
theorem c3_retry_transitions_witness :
    ((time_limit ⟨601, .ok 0⟩ 0).1 = .returned (0 + secondsPerHour) ∧
     (time_limit ⟨601, .ok 0⟩ 0).2.timeoutReported = true) ∧
    run_scraper ⟨"boom", ""⟩ 50000 = 50000 + secondsPerHour ∧
    run_scraper ⟨"Success", ""⟩ 50000
      = startOfDay 50000 + secondsPerDay + 12 * secondsPerHour :=
  ⟨(c3_retry_transitions ⟨601, .ok 0⟩ 0 0 ⟨"", ""⟩).1 (by decide),
   (c3_retry_transitions ⟨601, .ok 0⟩ 0 50000 ⟨"boom", ""⟩).2.1 (by decide),
   ((c3_retry_transitions ⟨601, .ok 0⟩ 0 50000 ⟨"Success", ""⟩).2.2 (by decide)).1⟩

/-! ## Claim C7 -/

/-- Claim C7, counterexample: a wrapped task that raises within the ceiling
is neither returned as a result nor terminated and reported as a timeout:
the exception propagates out of time_limit, so the claimed two-outcome
contract does not cover every wrapped task. -/
theorem c7_counterexample :
    (time_limit ⟨0, .error "boom"⟩ 0).1 = .raised "boom" ∧
    (time_limit ⟨0, .error "boom"⟩ 0).2.timeoutReported = false ∧
    (time_limit ⟨0, .error "boom"⟩ 0).2.terminated = false := by
  refine ⟨by decide, by decide, by decide⟩

/-- Claim C7, amended: the executor returns the task result when the task
completes normally within the ceiling (and joins the pool); when the task
outruns the ceiling it terminates the pool and reports the timeout; when
the task raises within the ceiling the exception propagates to the caller
and pool.join is skipped; on every path no worker is left running after the
call returns, because on the only path where the task has not already
finished the pool is terminated. -/
theorem c7_bounded_executor (task : Task) (u : Nat) :
    (∀ v, task.outcome = .ok v → task.duration ≤ ceiling →
      (time_limit task u).1 = .returned v ∧
      (time_limit task u).2.joined = true) ∧
    (ceiling < task.duration →
      (time_limit task u).1 = .returned (u + secondsPerHour) ∧
      (time_limit task u).2.terminated = true ∧
      (time_limit task u).2.timeoutReported = true) ∧
    (∀ e, task.outcome = .error e → task.duration ≤ ceiling →
      (time_limit task u).1 = .raised e ∧
      (time_limit task u).2.joined = false) ∧
    residualWorker task (time_limit task u).2 = false := by
  refine ⟨fun v hv hd => ?_, fun h => ?_, fun e he hd => ?_, ?_⟩
  · unfold time_limit
    rw [if_pos hd, hv]
    exact ⟨rfl, rfl⟩
  · unfold time_limit
    rw [if_neg (Nat.not_le.mpr h)]
    exact ⟨by rw [change_update_time_next_hour], rfl, rfl⟩
  · unfold time_limit
    rw [if_pos hd, he]
    exact ⟨rfl, rfl⟩
  · by_cases hd : task.duration ≤ ceiling
    · unfold residualWorker
      rw [decide_eq_false (Nat.not_lt.mpr hd)]
      rfl
    · unfold time_limit
      rw [if_neg hd]
      unfold residualWorker
      simp

/-- Witness for the amended C7 theorem: the normal-completion branch at a
concrete task. -/
theorem c7_bounded_executor_witness :
    (time_limit ⟨5, .ok 77⟩ 0).1 = .returned 77 ∧
    (time_limit ⟨5, .ok 77⟩ 0).2.joined = true :=
  (c7_bounded_executor ⟨5, .ok 77⟩ 0).1 77 rfl (by decide)

/-! ## Claim C4 -/

theorem save_all_solax_length (db : DB) (c : CycleInput) :
    (save_all_data_to_db db c).1.solax.length
      = db.solax.length + (if c.solax.isOk && c.solaxStore then 1 else 0) := by
  cases hs : c.solax with
  | ok v =>
    obtain ⟨y, p⟩ := v
    cases hb : c.solaxStore <;>
      simp [save_all_data_to_db, solaxBlock, saveBlock, session_scope, hs, hb, Fetch.isOk]
  | failed =>
    simp [save_all_data_to_db, solaxBlock, saveBlock, session_scope, hs, Fetch.isOk]
  | raised =>
    simp [save_all_data_to_db, solaxBlock, saveBlock, session_scope, hs, Fetch.isOk]

theorem save_all_tuya_length (db : DB) (c : CycleInput) :
    (save_all_data_to_db db c).1.tuya.length
      = db.tuya.length + (if c.tuya.isOk && c.tuyaStore then 1 else 0) := by
  cases hs : c.tuya with
  | ok v =>
    obtain ⟨fe, h⟩ := v
    cases hb : c.tuyaStore <;>
      simp [save_all_data_to_db, tuyaBlock, saveBlock, session_scope, hs, hb, Fetch.isOk]
  | failed =>
    simp [save_all_data_to_db, tuyaBlock, saveBlock, session_scope, hs, Fetch.isOk]
  | raised =>
    simp [save_all_data_to_db, tuyaBlock, saveBlock, session_scope, hs, Fetch.isOk]

theorem save_all_weather_length (db : DB) (c : CycleInput) :
    (save_all_data_to_db db c).1.weather.length
      = db.weather.length + (if c.weather.isOk && c.weatherStore then 1 else 0) := by
  cases hs : c.weather with
  | ok v =>
    cases hb : c.weatherStore <;>
      simp [save_all_data_to_db, weatherBlock, saveBlock, session_scope, hs, hb, Fetch.isOk]
  | failed =>
    simp [save_all_data_to_db, weatherBlock, saveBlock, session_scope, hs, Fetch.isOk]
  | raised =>
    simp [save_all_data_to_db, weatherBlock, saveBlock, session_scope, hs, Fetch.isOk]

theorem runCycles_solax_length (cs : List CycleInput) :
    ∀ db : DB, (runCycles cs db).1.solax.length
      = db.solax.length + cs.countP (fun c => c.solax.isOk && c.solaxStore) := by
  induction cs with
  | nil => intro db; simp [runCycles]
  | cons c rest ih =>
    intro db
    simp only [runCycles]
    rw [ih, save_all_solax_length, List.countP_cons]
    omega

theorem runCycles_tuya_length (cs : List CycleInput) :
    ∀ db : DB, (runCycles cs db).1.tuya.length
      = db.tuya.length + cs.countP (fun c => c.tuya.isOk && c.tuyaStore) := by
  induction cs with
  | nil => intro db; simp [runCycles]
  | cons c rest ih =>
    intro db
    simp only [runCycles]
    rw [ih, save_all_tuya_length, List.countP_cons]
    omega

theorem runCycles_weather_length (cs : List CycleInput) :
    ∀ db : DB, (runCycles cs db).1.weather.length
      = db.weather.length + cs.countP (fun c => c.weather.isOk && c.weatherStore) := by
  induction cs with
  | nil => intro db; simp [runCycles]
  | cons c rest ih =>
    intro db
    simp only [runCycles]
    rw [ih, save_all_weather_length, List.countP_cons]
    omega

/-- Claim C4, confirmed: within one cycle the fetch-and-store outcome of
any one source has no effect on the rows the other two sources persist
(each pair of equalities swaps one source outcome and store flag for an
arbitrary other one), and over any finite run of cycles every table grows
by exactly the number of cycles in which its own source fetched and stored
successfully, regardless of any failures elsewhere, so no failure aborts a
cycle or a subsequent cycle. -/
theorem c4_failure_isolation (db : DB) (c : CycleInput)
    (s₂ : Fetch (ℚ × ℚ)) (sb₂ : Bool) (t₂ : Fetch (ℚ × HeaterTemps)) (tb₂ : Bool)
    (w₂ : Fetch WeatherFetch) (wb₂ : Bool) (cs : List CycleInput) :
    ((save_all_data_to_db db { c with solax := s₂, solaxStore := sb₂ }).1.tuya
        = (save_all_data_to_db db c).1.tuya ∧
     (save_all_data_to_db db { c with solax := s₂, solaxStore := sb₂ }).1.weather
        = (save_all_data_to_db db c).1.weather) ∧
    ((save_all_data_to_db db { c with tuya := t₂, tuyaStore := tb₂ }).1.solax
        = (save_all_data_to_db db c).1.solax ∧
     (save_all_data_to_db db { c with tuya := t₂, tuyaStore := tb₂ }).1.weather
        = (save_all_data_to_db db c).1.weather) ∧
    ((save_all_data_to_db db { c with weather := w₂, weatherStore := wb₂ }).1.solax
        = (save_all_data_to_db db c).1.solax ∧
     (save_all_data_to_db db { c with weather := w₂, weatherStore := wb₂ }).1.tuya
        = (save_all_data_to_db db c).1.tuya) ∧
    ((runCycles cs db).1.solax.length
        = db.solax.length + cs.countP (fun c => c.solax.isOk && c.solaxStore) ∧
     (runCycles cs db).1.tuya.length
        = db.tuya.length + cs.countP (fun c => c.tuya.isOk && c.tuyaStore) ∧
     (runCycles cs db).1.weather.length
        = db.weather.length + cs.countP (fun c => c.weather.isOk && c.weatherStore)) :=
  ⟨⟨rfl, rfl⟩, ⟨rfl, rfl⟩, ⟨rfl, rfl⟩,
   runCycles_solax_length cs db, runCycles_tuya_length cs db,
   runCycles_weather_length cs db⟩

/-! ## Claim C6 -/

/-- Claim C6, counterexample: in the end-to-end scenario (source A raises,
source B succeeds with 42 kWh against a stored baseline of 40 kWh, weather
succeeds) the cycle emits two notifications, both consequences of the
failure of A: the download-step message naming Solax, and the generic
session-scope message sent when the never-bound row variable raises
UnboundLocalError inside the save block and session_scope swallows it.
Since B and the weather source succeed and contribute no message, the
number of notifications emitted for the failure of A is 2, not exactly
one. -/
theorem c6_counterexample :
    (save_all_data_to_db c6db c6cycle).2
      = ["Error: Could not download Solax data to database",
         "Error: Session scope failed"] ∧
    (save_all_data_to_db c6db c6cycle).2.length = 2 ∧
    (save_all_data_to_db c6db c6cycle).2.countP
        (fun m => containsSubstr "Tuya" m) = 0 ∧
    (save_all_data_to_db c6db c6cycle).2.countP
        (fun m => containsSubstr "Weather" m) = 0 ∧
    ((2 : Nat) ≠ 1) := by
  refine ⟨by decide, by decide, by decide, by decide, by decide⟩

/-- Claim C6, amended: in the end-to-end scenario the stored delta for
source B is exactly 2 kWh and zero notifications are emitted for source B,
but the failure of source A produces two notifications rather than one:
the download-step message naming Solax, and the generic
Error: Session scope failed message emitted by the transactional scope
when the never-bound row variable raises UnboundLocalError inside the save
block (the save-step message of the outer except is never sent because
session_scope suppresses the exception). -/
theorem c6_end_to_end :
    (save_all_data_to_db c6db c6cycle).1.tuya
      = c6db.tuya ++ [⟨122400, 42, some 2, 20, 20, 20, 20, 20⟩] ∧
    (save_all_data_to_db c6db c6cycle).2
      = ["Error: Could not download Solax data to database",
         "Error: Session scope failed"] ∧
    (save_all_data_to_db c6db c6cycle).2.countP
        (fun m => containsSubstr "Tuya" m) = 0 ∧
    (save_all_data_to_db c6db c6cycle).2.countP
        (fun m => containsSubstr "Solax" m) = 1 := by
  refine ⟨?_, by decide, by decide, by decide⟩
  norm_num [save_all_data_to_db, tuyaBlock, saveBlock, session_scope, solaxBlock,
    weatherBlock, c6db, c6cycle, calculate_forward_energy_daily, baselineQuery,
    pickLatest, pickStep, laterRow, mkTuyaRow, startOfDay, secondsPerDay,
    List.filter, List.foldl]

/-! ## Claim C5 -/

/-- Claim C5, code bug: the schedule setup of house_energy.py registers the
return value of calling check_wifi_connection at setup time, which is None,
as the 5-minute job; the very first schedule.run_all at startup (and every
later run of that job) calls None, raising a TypeError that nothing in the
main loop catches, terminating the Process Supervisor loop process. -/
theorem c5_supervisor_loop_crashes :
    schedule_run_all houseEnergySetupJobs
      = .error "TypeError: NoneType object is not callable" ∧
    SchedJob.registeredNone ∈ houseEnergySetupJobs :=
  ⟨rfl, by decide⟩

/-! ## Claim C8 -/

/-- Claim C8, confirmed: when exactly one of the three required names is
present in the snapshot of running python scripts, exactly two Popen spawn
calls are issued that tick, one for each of the two missing names, and none
for the present name. -/
theorem c8_two_spawns (procs : List ProcInfo) (r₀ : String)
    (h₀ : r₀ ∈ required_processes)
    (hin : r₀ ∈ check_running_python_processes procs)
    (hother : ∀ r ∈ required_processes, r ≠ r₀ →
      r ∉ check_running_python_processes procs) :
    (check_and_run_processes procs).length = 2 ∧
    (∀ r ∈ required_processes, r ≠ r₀ →
      (check_and_run_processes procs).count r = 1) ∧
    (check_and_run_processes procs).count r₀ = 0 := by
  simp only [required_processes, List.mem_cons, List.not_mem_nil, or_false] at h₀
  rcases h₀ with rfl | rfl | rfl
  · have h2 : "datafetcher.py" ∉ check_running_python_processes procs :=
      hother _ (by simp [required_processes]) (by decide)
    have h3 : "scraping_scheduler.py" ∉ check_running_python_processes procs :=
      hother _ (by simp [required_processes]) (by decide)
    have hfil : check_and_run_processes procs
        = ["datafetcher.py", "scraping_scheduler.py"] := by
      simp [check_and_run_processes, required_processes, hin, h2, h3]
    rw [hfil]
    refine ⟨rfl, fun r hr hne => ?_, by decide⟩
    simp only [required_processes, List.mem_cons, List.not_mem_nil, or_false] at hr
    rcases hr with rfl | rfl | rfl
    · exact absurd rfl hne
    · decide
    · decide
  · have h2 : "app.py" ∉ check_running_python_processes procs :=
      hother _ (by simp [required_processes]) (by decide)
    have h3 : "scraping_scheduler.py" ∉ check_running_python_processes procs :=
      hother _ (by simp [required_processes]) (by decide)
    have hfil : check_and_run_processes procs
        = ["app.py", "scraping_scheduler.py"] := by
      simp [check_and_run_processes, required_processes, hin, h2, h3]
    rw [hfil]
    refine ⟨rfl, fun r hr hne => ?_, by decide⟩
    simp only [required_processes, List.mem_cons, List.not_mem_nil, or_false] at hr
    rcases hr with rfl | rfl | rfl
    · decide
    · exact absurd rfl hne
    · decide
  · have h2 : "app.py" ∉ check_running_python_processes procs :=
      hother _ (by simp [required_processes]) (by decide)
    have h3 : "datafetcher.py" ∉ check_running_python_processes procs :=
      hother _ (by simp [required_processes]) (by decide)
    have hfil : check_and_run_processes procs
        = ["app.py", "datafetcher.py"] := by
      simp [check_and_run_processes, required_processes, hin, h2, h3]
    rw [hfil]
    refine ⟨rfl, fun r hr hne => ?_, by decide⟩
    simp only [required_processes, List.mem_cons, List.not_mem_nil, or_false] at hr
    rcases hr with rfl | rfl | rfl
    · decide
    · decide
    · exact absurd rfl hne

/-- Witness for C8: a snapshot in which only datafetcher.py is running
yields two spawns and none for the running script. -/
theorem c8_two_spawns_witness :
    (check_and_run_processes [⟨"python3", ["python", "datafetcher.py"]⟩]).length = 2 ∧
    (check_and_run_processes
        [⟨"python3", ["python", "datafetcher.py"]⟩]).count "datafetcher.py" = 0 :=
  ⟨(c8_two_spawns [⟨"python3", ["python", "datafetcher.py"]⟩] "datafetcher.py"
      (by decide) (by decide) (by decide)).1,
   (c8_two_spawns [⟨"python3", ["python", "datafetcher.py"]⟩] "datafetcher.py"
      (by decide) (by decide) (by decide)).2.2⟩

/-! ## Claim C9 -/

/-- Claim C9, confirmed: session_scope never propagates an exception to its
caller; when the body raises, the session is rolled back and not committed,
exactly one failure notification is emitted, and the session is closed;
when the body succeeds, the work is committed and the session is closed
with no notification. -/
theorem c9_session_scope {α : Type} (body : Except String α) :
    (∃ r, session_scope body = .ok r) ∧
    (∀ a, body = .ok a →
      session_scope body = .ok (some a, ⟨true, false, true, []⟩)) ∧
    (∀ e, body = .error e →
      session_scope body
        = .ok (none, ⟨false, true, true, ["Error: Session scope failed"]⟩)) := by
  refine ⟨?_, fun a ha => by subst ha; rfl, fun e he => by subst he; rfl⟩
  cases body with
  | ok a => exact ⟨_, rfl⟩
  | error e => exact ⟨_, rfl⟩

/-- Witness for C9 at a concrete raising body. -/
theorem c9_session_scope_witness :
    session_scope (Except.error "boom" : Except String Unit)
      = .ok (none, ⟨false, true, true, ["Error: Session scope failed"]⟩) :=
  (c9_session_scope (Except.error "boom" : Except String Unit)).2.2 "boom" rfl

/-! ## Claim C10 -/

theorem mem_check_running_iff (procs : List ProcInfo) (r : String) :
    r ∈ check_running_python_processes procs ↔
      ∃ p ∈ procs, containsSubstr "python" (strLower p.name) = true ∧
        p.cmdline ≠ [] ∧ (p.cmdline.get? 1).getD "Unknown" = r := by
  unfold check_running_python_processes
  rw [List.mem_filterMap]
  constructor
  · rintro ⟨p, hp, hf⟩
    by_cases hc : (containsSubstr "python" (strLower p.name) && !p.cmdline.isEmpty) = true
    · rw [if_pos hc] at hf
      injection hf with hf
      have hb := Bool.and_eq_true_iff.mp hc
      refine ⟨p, hp, hb.1, fun hnil => ?_, hf⟩
      rw [hnil] at hb
      simpa using hb.2
    · rw [if_neg hc] at hf
      cases hf
  · rintro ⟨p, hp, h1, h2, h3⟩
    refine ⟨p, hp, ?_⟩
    have hc : (containsSubstr "python" (strLower p.name) && !p.cmdline.isEmpty) = true := by
      rw [h1]
      simpa using h2
    rw [if_pos hc, h3]

/-- Claim C10, confirmed: a required script counts as running exactly when
some live process has python in its lower-cased name, a non-empty cmdline,
and its second cmdline token (or Unknown for a one-entry cmdline) equals
the required name; consequently a required script whose launching cmdline
carries any other second token, such as an interpreter flag, is treated as
missing and respawned on account of every tick. -/
theorem c10_recognition_by_token (procs : List ProcInfo) (r : String) :
    (r ∈ check_running_python_processes procs ↔
      ∃ p ∈ procs, containsSubstr "python" (strLower p.name) = true ∧
        p.cmdline ≠ [] ∧ (p.cmdline.get? 1).getD "Unknown" = r) ∧
    (r ∈ required_processes →
      (∀ p ∈ procs, (p.cmdline.get? 1).getD "Unknown" ≠ r) →
      r ∈ check_and_run_processes procs) := by
  refine ⟨mem_check_running_iff procs r, fun hreq hnone => ?_⟩
  have hnotin : r ∉ check_running_python_processes procs := by
    rw [mem_check_running_iff]
    rintro ⟨p, hp, hpy, hne, htok⟩
    exact hnone p hp htok
  unfold check_and_run_processes
  exact List.mem_filter.mpr ⟨hreq, by simpa using hnotin⟩

/-- Witness for C10: app.py launched as python -u app.py is not recognized
as running and is spawned again. -/
theorem c10_recognition_by_token_witness :
    "app.py" ∈ check_and_run_processes [⟨"python", ["python", "-u", "app.py"]⟩] :=
  (c10_recognition_by_token [⟨"python", ["python", "-u", "app.py"]⟩] "app.py").2
    (by decide) (by decide)

end HouseEnergy
